import Mathlib

/-!
Verification of the smart-signals traffic controller core.

Shallow embedding of `src/core/traffic_logic.py` (class `TrafficSignalController`)
and the scheduler-relevant parts of `src/core/detector.py`
(class `MultiLaneDetectionSystem`) from the ai-powered-smart-signals repository.

Python dictionaries keyed by lane id are modelled as association lists with
Python dict semantics (update-in-place for an existing key, append for a new
key, insertion order preserved).  Python truthiness tests on the optional
override slot (`if self.force_emergency_lane:`) are modelled explicitly:
`None` and `0` are falsy.  `time.sleep` calls are recorded as a list of slept
durations, and every intermediate shared-state write (each `with self.lock:`
block) is materialised as a state in a trace, so that instant-by-instant
invariants can be stated.
-/

namespace SmartSignals

/-- The `SignalState` enum from traffic_logic.py. -/
inductive SignalState where
  | RED
  | GREEN
  | YELLOW
deriving DecidableEq, Repr

/-- The `SignalMode` enum from traffic_logic.py. -/
inductive SignalMode where
  | NORMAL
  | EMERGENCY
deriving DecidableEq, Repr

/-- String payload of a `SignalMode` member (its `.value` in Python). -/
def SignalMode.value : SignalMode → String
  | .NORMAL => "NORMAL"
  | .EMERGENCY => "EMERGENCY"

/-- The detection data one `LaneVideoProcessor` currently publishes:
`latest_counts` (a per-class vehicle-count dict) and `is_ambulance`.
The video frame itself is irrelevant to the scheduler and omitted. -/
structure LaneData where
  counts : List (String × Nat)
  ambulance : Bool
deriving DecidableEq, Repr

/-- Model of `MultiLaneDetectionSystem`: processor `i` (0-based position in the
`processors` list) serves lane `i+1`, exactly as built by
`for i, path in enumerate(video_paths, 1)` in detector.py. -/
structure MultiLaneDetectionSystem where
  processors : List LaneData
deriving DecidableEq, Repr

/-- Model of `MultiLaneDetectionSystem.get_lane_data`: the processor's data for
`1 <= lane_id <= len(self.processors)`, and `(None, {}, False)` otherwise. -/
def MultiLaneDetectionSystem.get_lane_data (sys : MultiLaneDetectionSystem)
    (lane_id : Nat) : List (String × Nat) × Bool :=
  if 1 ≤ lane_id ∧ lane_id ≤ sys.processors.length then
    let d := sys.processors.getD (lane_id - 1) ⟨[], false⟩
    (d.counts, d.ambulance)
  else
    ([], false)

/-- Model of `MultiLaneDetectionSystem.get_all_lane_data`: one entry per processor, in
list order, keyed by the processor's lane id (`enumerate(video_paths, 1)`
makes that key `position + 1`). -/
def MultiLaneDetectionSystem.get_all_lane_data (sys : MultiLaneDetectionSystem) :
    List (Nat × LaneData) :=
  List.enumFrom 1 sys.processors

/-- One record written through `db.log_traffic_cycle(...)`. -/
structure LogEntry where
  lane_id : Nat
  vehicle_counts : List (String × Nat)
  ambulance_detected : Bool
  green_duration : Nat
  signal_mode : String
deriving DecidableEq, Repr

/-- The mutable attributes of `TrafficSignalController` (minus the injected
collaborators and the thread/lock plumbing). -/
structure ControllerState where
  lane_states : List (Nat × SignalState)
  current_lane : Nat
  mode : SignalMode
  yellow_duration : Nat
  transition_delay : Nat
  running : Bool
  force_emergency_lane : Option Nat
  cycle_count : Nat
  emergency_count : Nat
  total_wait_time_saved : Int
deriving DecidableEq, Repr

/-- The state established by `TrafficSignalController.__init__`. -/
def initState : ControllerState where
  lane_states := [(1, .RED), (2, .RED), (3, .RED), (4, .RED)]
  current_lane := 1
  mode := .NORMAL
  yellow_duration := 3
  transition_delay := 2
  running := false
  force_emergency_lane := none
  cycle_count := 0
  emergency_count := 0
  total_wait_time_saved := 0

/-- Python dict assignment `d[k] = v`: replace the value at an existing key,
otherwise append a fresh `(k, v)` entry. -/
def dictSet (d : List (Nat × SignalState)) (k : Nat) (v : SignalState) :
    List (Nat × SignalState) :=
  if d.any (fun p => p.1 = k) then
    d.map (fun p => if p.1 = k then (k, v) else p)
  else
    d ++ [(k, v)]

/-- Python `d.get(k, RED)`. -/
def dictGet (d : List (Nat × SignalState)) (k : Nat) : SignalState :=
  ((d.find? (fun p => p.1 = k)).map (fun p => p.2)).getD .RED

/-- Model of `calculate_green_duration`: the tiered dynamic-timing function. -/
def calculate_green_duration (vehicle_count : Nat) : Nat :=
  if vehicle_count > 15 then 60
  else if vehicle_count ≥ 5 then 30
  else 15

/-- Model of `get_lane_state`: current signal state of one lane (`dict.get` default RED). -/
def get_lane_state (s : ControllerState) (lane_id : Nat) : SignalState :=
  dictGet s.lane_states lane_id

/-- Model of `force_emergency`: the manual override entry point; unconditionally
overwrites the single pending slot. -/
def force_emergency (s : ControllerState) (lane_id : Nat) : ControllerState :=
  { s with force_emergency_lane := some lane_id }

/-- Python truthiness of the optional override slot: `None` and `0` are falsy. -/
def optTruthy : Option Nat → Bool
  | none => false
  | some l => decide (l ≠ 0)

/-- Model of `check_emergency_conditions`: consume a truthy manual override first,
otherwise return the first lane in `get_all_lane_data` iteration order whose
ambulance flag is set, otherwise `None`.  Returns the result paired with the
(possibly updated) controller state. -/
def check_emergency_conditions (s : ControllerState)
    (sys : MultiLaneDetectionSystem) : Option Nat × ControllerState :=
  if optTruthy s.force_emergency_lane then
    (s.force_emergency_lane, { s with force_emergency_lane := none })
  else
    match sys.get_all_lane_data.find? (fun p => p.2.ambulance) with
    | some p => (some p.1, s)
    | none => (none, s)

/-- First lock block of `transition_to_lane`: the outgoing lane turns YELLOW. -/
def transYellow (s : ControllerState) (from_lane : Nat) : ControllerState :=
  { s with lane_states := dictSet s.lane_states from_lane .YELLOW }

/-- Second lock block of `transition_to_lane`: the outgoing lane turns RED. -/
def transRed (s : ControllerState) (from_lane : Nat) : ControllerState :=
  { s with lane_states := dictSet s.lane_states from_lane .RED }

/-- Third lock block of `transition_to_lane`: the incoming lane turns GREEN
and becomes the current lane. -/
def transGreen (s : ControllerState) (to_lane : Nat) : ControllerState :=
  { s with lane_states := dictSet s.lane_states to_lane .GREEN,
           current_lane := to_lane }

/-- Model of `transition_to_lane`: YELLOW, sleep, RED, sleep, GREEN. -/
def transition_to_lane (s : ControllerState) (from_lane to_lane : Nat) :
    ControllerState :=
  transGreen (transRed (transYellow s from_lane) from_lane) to_lane

/-- The three successive shared-state snapshots produced by
`transition_to_lane` (one per lock block). -/
def transStates (s : ControllerState) (from_lane to_lane : Nat) :
    List ControllerState :=
  [transYellow s from_lane,
   transRed (transYellow s from_lane) from_lane,
   transition_to_lane s from_lane to_lane]

/-- Durations slept inside `transition_to_lane`. -/
def transSleeps (s : ControllerState) : List Nat :=
  [s.yellow_duration, s.transition_delay]

/-- Vehicle counts for the current lane, `counts` of
`get_lane_data(self.current_lane)`. -/
def activeCounts (s : ControllerState) (sys : MultiLaneDetectionSystem) :
    List (String × Nat) :=
  (sys.get_lane_data s.current_lane).1

/-- Ambulance flag of `get_lane_data(self.current_lane)`. -/
def activeAmbulance (s : ControllerState) (sys : MultiLaneDetectionSystem) : Bool :=
  (sys.get_lane_data s.current_lane).2

/-- The quantity `total_vehicles = sum(counts.values())` for the current lane. -/
def activeTotal (s : ControllerState) (sys : MultiLaneDetectionSystem) : Nat :=
  ((activeCounts s sys).map (fun p => p.2)).sum

/-- The state after the ambulance-in-active-lane check at the top of
`handle_normal_cycle`. -/
def ncMark (s : ControllerState) (sys : MultiLaneDetectionSystem) :
    ControllerState :=
  if activeAmbulance s sys then
    { s with mode := .EMERGENCY, emergency_count := s.emergency_count + 1 }
  else s

/-- The quantity `wait_time_saved = max(0, fixed_time - green_duration)` with
`fixed_time = 60`. -/
def waitTimeSaved (green_duration : Nat) : Int :=
  max 0 ((60 : Int) - green_duration)

/-- The state of `handle_normal_cycle` after accumulating
`total_wait_time_saved` (and before the green sleep). -/
def ncAccrue (s : ControllerState) (sys : MultiLaneDetectionSystem) :
    ControllerState :=
  let green_duration := calculate_green_duration (activeTotal s sys)
  { ncMark s sys with
      total_wait_time_saved :=
        (ncMark s sys).total_wait_time_saved + waitTimeSaved green_duration }

/-- Model of `handle_normal_cycle`: one full normal iteration for the current lane.
Returns the final state together with the records logged. -/
def handle_normal_cycle (s : ControllerState) (sys : MultiLaneDetectionSystem) :
    ControllerState × List LogEntry :=
  let lane := s.current_lane
  let green_duration := calculate_green_duration (activeTotal s sys)
  let s1 := ncAccrue s sys
  let entry : LogEntry :=
    { lane_id := lane
      vehicle_counts := activeCounts s sys
      ambulance_detected := activeAmbulance s sys
      green_duration := green_duration
      signal_mode := s1.mode.value }
  let next_lane := (lane % 4) + 1
  let s2 := transition_to_lane s1 lane next_lane
  let s3 := { s2 with mode := .NORMAL, cycle_count := s2.cycle_count + 1 }
  (s3, [entry])

/-- Every shared-state snapshot produced during `handle_normal_cycle`, in
program order (the green sleep itself does not change state). -/
def normalCycleStates (s : ControllerState) (sys : MultiLaneDetectionSystem) :
    List ControllerState :=
  let s1 := ncAccrue s sys
  let next_lane := (s.current_lane % 4) + 1
  ncMark s sys :: s1 :: transStates s1 s.current_lane next_lane
    ++ [{ transition_to_lane s1 s.current_lane next_lane with mode := .NORMAL },
        (handle_normal_cycle s sys).1]

/-- Durations slept during `handle_normal_cycle`: the green hold
(`time.sleep(green_duration)`, an uninterruptible call) followed by the two
sleeps inside `transition_to_lane`. -/
def normalCycleSleeps (s : ControllerState) (sys : MultiLaneDetectionSystem) :
    List Nat :=
  calculate_green_duration (activeTotal s sys) :: transSleeps s

/-- Model of `handle_emergency_override`: if the ambulance is already in the active
lane, return unchanged; otherwise bump the emergency counter, transition to
the emergency lane, log a 45 s EMERGENCY grant and bump the cycle counter. -/
def handle_emergency_override (s : ControllerState)
    (sys : MultiLaneDetectionSystem) (emergency_lane : Nat) :
    ControllerState × List LogEntry :=
  let current := s.current_lane
  if current = emergency_lane then
    (s, [])
  else
    let s1 := { s with emergency_count := s.emergency_count + 1 }
    let s2 := transition_to_lane s1 current emergency_lane
    let emergency_duration := 45
    let entry : LogEntry :=
      { lane_id := emergency_lane
        vehicle_counts := (sys.get_lane_data emergency_lane).1
        ambulance_detected := true
        green_duration := emergency_duration
        signal_mode := "EMERGENCY" }
    let s3 := { s2 with cycle_count := s2.cycle_count + 1 }
    (s3, [entry])

/-- Every shared-state snapshot produced during `handle_emergency_override`. -/
def emergencyStates (s : ControllerState) (sys : MultiLaneDetectionSystem)
    (emergency_lane : Nat) : List ControllerState :=
  let current := s.current_lane
  if current = emergency_lane then
    [s]
  else
    let s1 := { s with emergency_count := s.emergency_count + 1 }
    s1 :: transStates s1 current emergency_lane
      ++ [(handle_emergency_override s sys emergency_lane).1]

/-- Durations slept during `handle_emergency_override` when a transition
happens: yellow, transition delay, then the fixed 45 s emergency green. -/
def emergencySleeps (s : ControllerState) (emergency_lane : Nat) : List Nat :=
  if s.current_lane = emergency_lane then [] else transSleeps s ++ [45]

/-- One iteration of the `while self.running` body of `run` (the non-raising
path): check emergency conditions, then branch on the Python truthiness of
the result (`if emergency_lane:`). -/
def loopIter (s : ControllerState) (sys : MultiLaneDetectionSystem) :
    ControllerState :=
  let r := check_emergency_conditions s sys
  match r.1 with
  | some l =>
      if l ≠ 0 then
        (handle_emergency_override { r.2 with mode := .EMERGENCY } sys l).1
      else
        (handle_normal_cycle { r.2 with mode := .NORMAL } sys).1
  | none => (handle_normal_cycle { r.2 with mode := .NORMAL } sys).1

/-- Every shared-state snapshot of one loop iteration, in program order. -/
def iterStates (s : ControllerState) (sys : MultiLaneDetectionSystem) :
    List ControllerState :=
  let r := check_emergency_conditions s sys
  match r.1 with
  | some l =>
      if l ≠ 0 then
        { r.2 with mode := .EMERGENCY }
          :: emergencyStates { r.2 with mode := .EMERGENCY } sys l
      else
        { r.2 with mode := .NORMAL }
          :: normalCycleStates { r.2 with mode := .NORMAL } sys
  | none =>
      { r.2 with mode := .NORMAL }
        :: normalCycleStates { r.2 with mode := .NORMAL } sys

/-- The initialisation performed at the top of `run`: `running = True`,
lane 1 GREEN, `current_lane = 1`. -/
def runInit (s : ControllerState) : ControllerState :=
  { s with running := true,
           lane_states := dictSet s.lane_states 1 .GREEN,
           current_lane := 1 }

/-- The scheduler input for one loop iteration: an optional
`force_emergency` call landing just before the iteration, and the detection
snapshot the iteration reads. -/
structure IterInput where
  override : Option Nat
  sys : MultiLaneDetectionSystem
deriving Repr

/-- Apply a pending external `force_emergency` call, if any. -/
def applyOverride (s : ControllerState) : Option Nat → ControllerState
  | some l => force_emergency s l
  | none => s

/-- The state reached after running the loop on a list of iteration inputs. -/
def execLoop (s : ControllerState) : List IterInput → ControllerState
  | [] => s
  | inp :: rest => execLoop (loopIter (applyOverride s inp.override) inp.sys) rest

/-- All shared-state snapshots produced while running the loop on a list of
iteration inputs. -/
def execGo (s : ControllerState) : List IterInput → List ControllerState
  | [] => []
  | inp :: rest =>
      applyOverride s inp.override
        :: iterStates (applyOverride s inp.override) inp.sys
        ++ execGo (loopIter (applyOverride s inp.override) inp.sys) rest

/-- Every shared-state snapshot of a whole controller execution: the
constructed state, the `run` initialisation, then every instant of every
loop iteration. -/
def execTrace (inputs : List IterInput) : List ControllerState :=
  initState :: runInit initState :: execGo (runInit initState) inputs

/-- The dictionary returned by `get_statistics`. -/
structure Statistics where
  total_cycles : Nat
  emergency_events : Nat
  wait_time_saved : Int
  current_lane : Nat
  mode : String
  avg_wait_saved_per_cycle : ℚ

/-- Model of `get_statistics`. -/
def get_statistics (s : ControllerState) : Statistics where
  total_cycles := s.cycle_count
  emergency_events := s.emergency_count
  wait_time_saved := s.total_wait_time_saved
  current_lane := s.current_lane
  mode := s.mode.value
  avg_wait_saved_per_cycle :=
    if s.cycle_count > 0 then
      (s.total_wait_time_saved : ℚ) / (s.cycle_count : ℚ)
    else 0

/-- Every lane other than the current one shows RED. -/
def PInv (s : ControllerState) : Prop :=
  ∀ j : Nat, j ≠ s.current_lane → get_lane_state s j = .RED

/-- Every lane shows RED (holds between the RED and GREEN writes of a
transition). -/
def AllRedP (s : ControllerState) : Prop :=
  ∀ j : Nat, get_lane_state s j = .RED

/-- At most one lane is in a non-RED state. -/
def atMostOneNonRed (s : ControllerState) : Prop :=
  ∀ i j : Nat, get_lane_state s i ≠ .RED → get_lane_state s j ≠ .RED → i = j

/-- The intermediate invariant used for C3 and C4: every lane other than the
current one RED, and the fixed phase durations as set by `__init__`. -/
def GoodState (s : ControllerState) : Prop :=
  PInv s ∧ s.yellow_duration = 3 ∧ s.transition_delay = 2

/-- No lane currently reports an ambulance. -/
def quiet (sys : MultiLaneDetectionSystem) : Prop :=
  ∀ d ∈ sys.processors, d.ambulance = false

/-- The green durations granted by a sequence of consecutive normal cycles,
one detection snapshot per cycle. -/
def greens (s : ControllerState) : List MultiLaneDetectionSystem → List Nat
  | [] => []
  | sys :: rest =>
      calculate_green_duration (activeTotal s sys)
        :: greens (handle_normal_cycle s sys).1 rest

/-- The controller state after a sequence of consecutive normal cycles. -/
def normalRun (s : ControllerState) :
    List MultiLaneDetectionSystem → ControllerState
  | [] => s
  | sys :: rest => normalRun (handle_normal_cycle s sys).1 rest

/-- One pass of the `try/except` body of `run`: a successful pass executes
one loop iteration on its detection snapshot; a raising pass is caught by the
`except` clause (logged, `time.sleep(5)` back-off) and changes nothing. -/
def runStepE (s : ControllerState) :
    Except String MultiLaneDetectionSystem → ControllerState
  | .ok sys => loopIter s sys
  | .error _ => s

/-- The `while self.running` loop of `run`, fed one body outcome per
iteration: it keeps iterating while `running` holds and stops otherwise. -/
def runLoop (s : ControllerState) :
    List (Except String MultiLaneDetectionSystem) → ControllerState
  | [] => s
  | i :: rest => if s.running then runLoop (runStepE s i) rest else s

/-- Model of `stop`: the explicit stop request (`self.running = False`). -/
def stop (s : ControllerState) : ControllerState :=
  { s with running := false }

/-! ### Association-list (Python dict) lemmas -/

lemma find?_append_eq {α : Type} (p : α → Bool) (l₁ l₂ : List α)
    (h : ∀ x ∈ l₁, p x = false) : (l₁ ++ l₂).find? p = l₂.find? p := by
  induction l₁ with
  | nil => rfl
  | cons a l ih =>
      have ha := h a (List.mem_cons_self a l)
      rw [List.cons_append, List.find?_cons_of_neg _ (by simp [ha])]
      exact ih (fun x hx => h x (List.mem_cons_of_mem a hx))

lemma dictGet_of_allRed (d : List (Nat × SignalState))
    (h : ∀ p ∈ d, p.2 = SignalState.RED) (j : Nat) : dictGet d j = .RED := by
  unfold dictGet
  rcases hf : d.find? (fun p => p.1 = j) with _ | p
  · simp [hf]
  · have hm := List.mem_of_find?_eq_some hf
    simp [hf, h p hm]

lemma dictGet_map_set_self (d : List (Nat × SignalState)) (k : Nat)
    (v : SignalState) (h : d.any (fun p => p.1 = k) = true) :
    dictGet (d.map fun p => if p.1 = k then (k, v) else p) k = v := by
  induction d with
  | nil => simp at h
  | cons a d ih =>
      rw [List.map_cons]
      by_cases hak : a.1 = k
      · rw [if_pos hak]
        unfold dictGet
        rw [List.find?_cons_of_pos _ (by simp)]
        rfl
      · rw [if_neg hak]
        have h' : d.any (fun p => p.1 = k) = true := by
          simpa [List.any_cons, hak] using h
        unfold dictGet
        rw [List.find?_cons_of_neg _ (by simp [hak])]
        exact ih h'

lemma dictGet_map_set_ne (d : List (Nat × SignalState)) (k : Nat)
    (v : SignalState) (j : Nat) (h : j ≠ k) :
    dictGet (d.map fun p => if p.1 = k then (k, v) else p) j = dictGet d j := by
  induction d with
  | nil => rfl
  | cons a d ih =>
      rw [List.map_cons]
      by_cases hak : a.1 = k
      · rw [if_pos hak]
        unfold dictGet
        rw [List.find?_cons_of_neg _ (by simp [Ne.symm h]),
            List.find?_cons_of_neg _ (by simp [hak, Ne.symm h])]
        exact ih
      · rw [if_neg hak]
        by_cases haj : a.1 = j
        · unfold dictGet
          rw [List.find?_cons_of_pos _ (by simp [haj]),
              List.find?_cons_of_pos _ (by simp [haj])]
        · unfold dictGet
          rw [List.find?_cons_of_neg _ (by simp [haj]),
              List.find?_cons_of_neg _ (by simp [haj])]
          exact ih

lemma dictGet_dictSet_self (d : List (Nat × SignalState)) (k : Nat)
    (v : SignalState) : dictGet (dictSet d k v) k = v := by
  unfold dictSet
  by_cases h : d.any (fun p => p.1 = k) = true
  · rw [if_pos h]
    exact dictGet_map_set_self d k v h
  · rw [if_neg h]
    have hall : ∀ p ∈ d, (fun q : Nat × SignalState => decide (q.1 = k)) p = false := by
      intro p hp
      by_contra hc
      exact h (List.any_eq_true.mpr ⟨p, hp, by simpa using hc⟩)
    unfold dictGet
    rw [find?_append_eq _ _ _ hall]
    simp [List.find?]

lemma dictGet_dictSet_ne (d : List (Nat × SignalState)) (k : Nat)
    (v : SignalState) (j : Nat) (h : j ≠ k) :
    dictGet (dictSet d k v) j = dictGet d j := by
  unfold dictSet
  by_cases hany : d.any (fun p => p.1 = k) = true
  · rw [if_pos hany]
    exact dictGet_map_set_ne d k v j h
  · rw [if_neg hany]
    unfold dictGet
    rcases hf : d.find? (fun p => p.1 = j) with _ | p
    · rw [List.find?_append, hf]
      simp [List.find?, Ne.symm h]
    · rw [List.find?_append, hf]
      rfl

/-! ### `enumFrom` lemmas (for `get_all_lane_data` iteration order) -/

lemma enumFrom_cons_eq {α : Type} (a : α) (l : List α) (n : Nat) :
    List.enumFrom n (a :: l) = (n, a) :: List.enumFrom (n + 1) l := rfl

lemma mem_enumFrom_snd {α : Type} (l : List α) (n : Nat) (p : Nat × α)
    (h : p ∈ List.enumFrom n l) : p.2 ∈ l := by
  induction l generalizing n with
  | nil => simp [List.enumFrom] at h
  | cons a l ih =>
      rw [enumFrom_cons_eq] at h
      rcases List.mem_cons.mp h with h | h
      · rw [h]
        exact List.mem_cons_self a l
      · exact List.mem_cons_of_mem a (ih (n + 1) h)

lemma mem_enumFrom_fst_ge {α : Type} (l : List α) (n : Nat) (p : Nat × α)
    (h : p ∈ List.enumFrom n l) : n ≤ p.1 := by
  induction l generalizing n with
  | nil => simp [List.enumFrom] at h
  | cons a l ih =>
      rw [enumFrom_cons_eq] at h
      rcases List.mem_cons.mp h with h | h
      · rw [h]
      · have := ih (n + 1) h
        omega

lemma find?_enumFrom_min {α : Type} (pred : Nat × α → Bool) (l : List α)
    (n : Nat) (q : Nat × α) (hf : (List.enumFrom n l).find? pred = some q) :
    ∀ r ∈ List.enumFrom n l, pred r = true → q.1 ≤ r.1 := by
  induction l generalizing n with
  | nil => simp [List.enumFrom, List.find?] at hf
  | cons a l ih =>
      intro r hr hpr
      rw [enumFrom_cons_eq] at hf hr
      by_cases hh : pred (n, a) = true
      · have hq : q = (n, a) := by
          rw [List.find?_cons_of_pos _ hh] at hf
          exact (Option.some_inj.mp hf).symm
        rcases List.mem_cons.mp hr with h | h
        · rw [hq, h]
        · have := mem_enumFrom_fst_ge l (n + 1) r h
          rw [hq]
          omega
      · rw [List.find?_cons_of_neg _ (by simpa using hh)] at hf
        rcases List.mem_cons.mp hr with h | h
        · rw [show r = (n, a) from h] at hpr
          exact absurd hpr hh
        · exact ih (n + 1) hf r h hpr

/-! ### Projection lemmas for the controller operations -/

@[simp] lemma ncMark_lane_states (s : ControllerState) (sys : MultiLaneDetectionSystem) :
    (ncMark s sys).lane_states = s.lane_states := by
  unfold ncMark; split <;> rfl

@[simp] lemma ncMark_current (s : ControllerState) (sys : MultiLaneDetectionSystem) :
    (ncMark s sys).current_lane = s.current_lane := by
  unfold ncMark; split <;> rfl

@[simp] lemma ncMark_yellow (s : ControllerState) (sys : MultiLaneDetectionSystem) :
    (ncMark s sys).yellow_duration = s.yellow_duration := by
  unfold ncMark; split <;> rfl

@[simp] lemma ncMark_delay (s : ControllerState) (sys : MultiLaneDetectionSystem) :
    (ncMark s sys).transition_delay = s.transition_delay := by
  unfold ncMark; split <;> rfl

@[simp] lemma ncMark_running (s : ControllerState) (sys : MultiLaneDetectionSystem) :
    (ncMark s sys).running = s.running := by
  unfold ncMark; split <;> rfl

@[simp] lemma ncMark_force (s : ControllerState) (sys : MultiLaneDetectionSystem) :
    (ncMark s sys).force_emergency_lane = s.force_emergency_lane := by
  unfold ncMark; split <;> rfl

@[simp] lemma ncMark_cycle (s : ControllerState) (sys : MultiLaneDetectionSystem) :
    (ncMark s sys).cycle_count = s.cycle_count := by
  unfold ncMark; split <;> rfl

@[simp] lemma ncMark_total (s : ControllerState) (sys : MultiLaneDetectionSystem) :
    (ncMark s sys).total_wait_time_saved = s.total_wait_time_saved := by
  unfold ncMark; split <;> rfl

lemma ncMark_emergency (s : ControllerState) (sys : MultiLaneDetectionSystem) :
    (ncMark s sys).emergency_count =
      if activeAmbulance s sys then s.emergency_count + 1 else s.emergency_count := by
  unfold ncMark; split <;> simp_all

@[simp] lemma hnc_current (s : ControllerState) (sys : MultiLaneDetectionSystem) :
    (handle_normal_cycle s sys).1.current_lane = (s.current_lane % 4) + 1 := rfl

@[simp] lemma hnc_mode (s : ControllerState) (sys : MultiLaneDetectionSystem) :
    (handle_normal_cycle s sys).1.mode = .NORMAL := rfl

@[simp] lemma hnc_cycle (s : ControllerState) (sys : MultiLaneDetectionSystem) :
    (handle_normal_cycle s sys).1.cycle_count = s.cycle_count + 1 := by
  simp [handle_normal_cycle, transition_to_lane, transGreen, transRed, transYellow, ncAccrue]

@[simp] lemma hnc_running (s : ControllerState) (sys : MultiLaneDetectionSystem) :
    (handle_normal_cycle s sys).1.running = s.running := by
  simp [handle_normal_cycle, transition_to_lane, transGreen, transRed, transYellow, ncAccrue]

@[simp] lemma hnc_force (s : ControllerState) (sys : MultiLaneDetectionSystem) :
    (handle_normal_cycle s sys).1.force_emergency_lane = s.force_emergency_lane := by
  simp [handle_normal_cycle, transition_to_lane, transGreen, transRed, transYellow, ncAccrue]

@[simp] lemma hnc_yellow (s : ControllerState) (sys : MultiLaneDetectionSystem) :
    (handle_normal_cycle s sys).1.yellow_duration = s.yellow_duration := by
  simp [handle_normal_cycle, transition_to_lane, transGreen, transRed, transYellow, ncAccrue]

@[simp] lemma hnc_delay (s : ControllerState) (sys : MultiLaneDetectionSystem) :
    (handle_normal_cycle s sys).1.transition_delay = s.transition_delay := by
  simp [handle_normal_cycle, transition_to_lane, transGreen, transRed, transYellow, ncAccrue]

@[simp] lemma hnc_total (s : ControllerState) (sys : MultiLaneDetectionSystem) :
    (handle_normal_cycle s sys).1.total_wait_time_saved =
      s.total_wait_time_saved
        + waitTimeSaved (calculate_green_duration (activeTotal s sys)) := by
  simp [handle_normal_cycle, transition_to_lane, transGreen, transRed, transYellow, ncAccrue]

lemma hnc_emergency (s : ControllerState) (sys : MultiLaneDetectionSystem) :
    (handle_normal_cycle s sys).1.emergency_count = (ncMark s sys).emergency_count := rfl

lemma hnc_lane_states (s : ControllerState) (sys : MultiLaneDetectionSystem) :
    (handle_normal_cycle s sys).1.lane_states =
      dictSet (dictSet (dictSet s.lane_states s.current_lane .YELLOW)
        s.current_lane .RED) ((s.current_lane % 4) + 1) .GREEN := by
  simp [handle_normal_cycle, transition_to_lane, transGreen, transRed, transYellow, ncAccrue]

lemma hnc_log (s : ControllerState) (sys : MultiLaneDetectionSystem) :
    (handle_normal_cycle s sys).2 =
      [{ lane_id := s.current_lane
         vehicle_counts := activeCounts s sys
         ambulance_detected := activeAmbulance s sys
         green_duration := calculate_green_duration (activeTotal s sys)
         signal_mode := (ncMark s sys).mode.value }] := rfl

lemma heo_of_same (s : ControllerState) (sys : MultiLaneDetectionSystem)
    (e : Nat) (h : s.current_lane = e) :
    handle_emergency_override s sys e = (s, []) := by
  simp [handle_emergency_override, h]

@[simp] lemma heo_total (s : ControllerState) (sys : MultiLaneDetectionSystem)
    (e : Nat) :
    (handle_emergency_override s sys e).1.total_wait_time_saved
      = s.total_wait_time_saved := by
  simp only [handle_emergency_override]
  split <;> rfl

@[simp] lemma heo_force (s : ControllerState) (sys : MultiLaneDetectionSystem)
    (e : Nat) :
    (handle_emergency_override s sys e).1.force_emergency_lane
      = s.force_emergency_lane := by
  simp only [handle_emergency_override]
  split <;> rfl

@[simp] lemma heo_running (s : ControllerState) (sys : MultiLaneDetectionSystem)
    (e : Nat) :
    (handle_emergency_override s sys e).1.running = s.running := by
  simp only [handle_emergency_override]
  split <;> rfl

@[simp] lemma heo_mode (s : ControllerState) (sys : MultiLaneDetectionSystem)
    (e : Nat) :
    (handle_emergency_override s sys e).1.mode = s.mode := by
  simp only [handle_emergency_override]
  split <;> rfl

@[simp] lemma heo_yellow (s : ControllerState) (sys : MultiLaneDetectionSystem)
    (e : Nat) :
    (handle_emergency_override s sys e).1.yellow_duration = s.yellow_duration := by
  simp only [handle_emergency_override]
  split <;> rfl

@[simp] lemma heo_delay (s : ControllerState) (sys : MultiLaneDetectionSystem)
    (e : Nat) :
    (handle_emergency_override s sys e).1.transition_delay = s.transition_delay := by
  simp only [handle_emergency_override]
  split <;> rfl

lemma heo_current_of_ne (s : ControllerState) (sys : MultiLaneDetectionSystem)
    (e : Nat) (h : s.current_lane ≠ e) :
    (handle_emergency_override s sys e).1.current_lane = e := by
  simp [handle_emergency_override, h, transition_to_lane, transGreen, transRed, transYellow]

lemma heo_cycle_of_ne (s : ControllerState) (sys : MultiLaneDetectionSystem)
    (e : Nat) (h : s.current_lane ≠ e) :
    (handle_emergency_override s sys e).1.cycle_count = s.cycle_count + 1 := by
  simp [handle_emergency_override, h, transition_to_lane, transGreen, transRed, transYellow]

lemma heo_emcount_of_ne (s : ControllerState) (sys : MultiLaneDetectionSystem)
    (e : Nat) (h : s.current_lane ≠ e) :
    (handle_emergency_override s sys e).1.emergency_count = s.emergency_count + 1 := by
  simp [handle_emergency_override, h, transition_to_lane, transGreen, transRed, transYellow]

lemma heo_lane_states_of_ne (s : ControllerState) (sys : MultiLaneDetectionSystem)
    (e : Nat) (h : s.current_lane ≠ e) :
    (handle_emergency_override s sys e).1.lane_states =
      dictSet (dictSet (dictSet s.lane_states s.current_lane .YELLOW)
        s.current_lane .RED) e .GREEN := by
  simp [handle_emergency_override, h, transition_to_lane, transGreen, transRed, transYellow]

lemma heo_log_of_ne (s : ControllerState) (sys : MultiLaneDetectionSystem)
    (e : Nat) (h : s.current_lane ≠ e) :
    (handle_emergency_override s sys e).2 =
      [{ lane_id := e
         vehicle_counts := (sys.get_lane_data e).1
         ambulance_detected := true
         green_duration := 45
         signal_mode := "EMERGENCY" }] := by
  simp [handle_emergency_override, h]

/-! ### The one-non-RED-lane invariant (instant by instant) -/

lemma atMostOneNonRed_of_PInv {s : ControllerState} (h : PInv s) :
    atMostOneNonRed s := by
  intro i j hi hj
  by_cases hic : i = s.current_lane
  · by_cases hjc : j = s.current_lane
    · rw [hic, hjc]
    · exact absurd (h j hjc) hj
  · exact absurd (h i hic) hi

lemma PInv_of_AllRedP {s : ControllerState} (h : AllRedP s) : PInv s :=
  fun j _ => h j

lemma PInv_congr {s s' : ControllerState} (h : PInv s)
    (hl : s'.lane_states = s.lane_states)
    (hc : s'.current_lane = s.current_lane) : PInv s' := by
  intro j hj
  rw [hc] at hj
  unfold get_lane_state
  rw [hl]
  exact h j hj

lemma PInv_transYellow {s : ControllerState} (h : PInv s) :
    PInv (transYellow s s.current_lane) := by
  intro j hj
  have hj' : j ≠ s.current_lane := hj
  unfold get_lane_state transYellow
  simp only
  rw [dictGet_dictSet_ne _ _ _ _ hj']
  exact h j hj'

lemma AllRedP_transRed {s : ControllerState} (h : PInv s) :
    AllRedP (transRed (transYellow s s.current_lane) s.current_lane) := by
  intro j
  unfold get_lane_state transRed transYellow
  simp only
  by_cases hj : j = s.current_lane
  · rw [hj, dictGet_dictSet_self]
  · rw [dictGet_dictSet_ne _ _ _ _ hj, dictGet_dictSet_ne _ _ _ _ hj]
    exact h j hj

lemma PInv_transGreen {s : ControllerState} (h : AllRedP s) (t : Nat) :
    PInv (transGreen s t) := by
  intro j hj
  have hj' : j ≠ t := hj
  unfold get_lane_state transGreen
  simp only
  rw [dictGet_dictSet_ne _ _ _ _ hj']
  exact h j

lemma PInv_transition {s : ControllerState} (h : PInv s) (t : Nat) :
    PInv (transition_to_lane s s.current_lane t) :=
  PInv_transGreen (AllRedP_transRed h) t

lemma GoodState_congr {s s' : ControllerState} (h : GoodState s)
    (hl : s'.lane_states = s.lane_states)
    (hc : s'.current_lane = s.current_lane)
    (hy : s'.yellow_duration = s.yellow_duration)
    (hd : s'.transition_delay = s.transition_delay) : GoodState s' :=
  ⟨PInv_congr h.1 hl hc, hy.trans h.2.1, hd.trans h.2.2⟩

lemma GoodState_transStates {s : ControllerState} (h : GoodState s) (t : Nat) :
    ∀ u ∈ transStates s s.current_lane t, GoodState u := by
  intro u hu
  rcases h with ⟨hp, hy, hd⟩
  simp only [transStates, List.mem_cons, List.mem_singleton] at hu
  rcases hu with hu | hu | hu | hu
  · exact hu ▸ ⟨PInv_transYellow hp, hy, hd⟩
  · exact hu ▸ ⟨PInv_of_AllRedP (AllRedP_transRed hp), hy, hd⟩
  · exact hu ▸ ⟨PInv_transition hp t, hy, hd⟩
  · simp at hu

lemma GoodState_transition {s : ControllerState} (h : GoodState s) (t : Nat) :
    GoodState (transition_to_lane s s.current_lane t) :=
  ⟨PInv_transition h.1 t, h.2.1, h.2.2⟩

lemma GoodState_ncMark {s : ControllerState} (sys : MultiLaneDetectionSystem)
    (h : GoodState s) : GoodState (ncMark s sys) :=
  GoodState_congr h (ncMark_lane_states s sys) (ncMark_current s sys)
    (ncMark_yellow s sys) (ncMark_delay s sys)

lemma GoodState_ncAccrue {s : ControllerState} (sys : MultiLaneDetectionSystem)
    (h : GoodState s) : GoodState (ncAccrue s sys) :=
  GoodState_congr (GoodState_ncMark sys h) rfl rfl rfl rfl

lemma ncAccrue_current (s : ControllerState) (sys : MultiLaneDetectionSystem) :
    (ncAccrue s sys).current_lane = s.current_lane := ncMark_current s sys

lemma GoodState_hnc {s : ControllerState} (sys : MultiLaneDetectionSystem)
    (h : GoodState s) : GoodState (handle_normal_cycle s sys).1 := by
  have h1 := GoodState_ncAccrue sys h
  have h2 := GoodState_transition h1 ((s.current_lane % 4) + 1)
  refine GoodState_congr h2 ?_ ?_ ?_ ?_ <;>
    simp [handle_normal_cycle, ncAccrue_current, transition_to_lane,
      transGreen, transRed, transYellow, ncAccrue]

lemma GoodState_normalCycleStates {s : ControllerState}
    (sys : MultiLaneDetectionSystem) (h : GoodState s) :
    ∀ u ∈ normalCycleStates s sys, GoodState u := by
  intro u hu
  have h1 := GoodState_ncAccrue sys h
  have htr : ∀ u ∈ transStates (ncAccrue s sys) s.current_lane
      ((s.current_lane % 4) + 1), GoodState u := by
    have := GoodState_transStates h1 ((s.current_lane % 4) + 1)
    rw [ncAccrue_current] at this
    exact this
  have h2 : GoodState (transition_to_lane (ncAccrue s sys) s.current_lane
      ((s.current_lane % 4) + 1)) := by
    have := GoodState_transition h1 ((s.current_lane % 4) + 1)
    rw [ncAccrue_current] at this
    exact this
  simp only [normalCycleStates, List.mem_append, List.mem_cons,
    List.mem_singleton, List.not_mem_nil, or_false] at hu
  rcases hu with (hu | hu | hu) | hu | hu
  · exact hu ▸ GoodState_ncMark sys h
  · exact hu ▸ h1
  · exact htr u hu
  · exact hu ▸ GoodState_congr h2 rfl rfl rfl rfl
  · exact hu ▸ GoodState_hnc sys h

lemma GoodState_heo {s : ControllerState} (sys : MultiLaneDetectionSystem)
    (e : Nat) (h : GoodState s) :
    GoodState (handle_emergency_override s sys e).1 := by
  by_cases hce : s.current_lane = e
  · rw [heo_of_same s sys e hce]
    exact h
  · have h1 : GoodState { s with emergency_count := s.emergency_count + 1 } :=
      GoodState_congr h rfl rfl rfl rfl
    have h2 := GoodState_transition h1 e
    refine GoodState_congr h2 ?_ ?_ ?_ ?_ <;>
      simp [heo_lane_states_of_ne s sys e hce, heo_current_of_ne s sys e hce,
        transition_to_lane, transGreen, transRed, transYellow]

lemma GoodState_emergencyStates {s : ControllerState}
    (sys : MultiLaneDetectionSystem) (e : Nat) (h : GoodState s) :
    ∀ u ∈ emergencyStates s sys e, GoodState u := by
  intro u hu
  simp only [emergencyStates] at hu
  by_cases hce : s.current_lane = e
  · rw [if_pos hce] at hu
    simp only [List.mem_singleton] at hu
    exact hu ▸ h
  · rw [if_neg hce] at hu
    have h1 : GoodState { s with emergency_count := s.emergency_count + 1 } :=
      GoodState_congr h rfl rfl rfl rfl
    simp only [List.mem_append, List.mem_cons, List.mem_singleton,
      List.not_mem_nil, or_false] at hu
    rcases hu with (hu | hu) | hu
    · exact hu ▸ h1
    · exact GoodState_transStates h1 e u hu
    · exact hu ▸ GoodState_heo sys e h

lemma GoodState_check {s : ControllerState} (sys : MultiLaneDetectionSystem)
    (h : GoodState s) : GoodState (check_emergency_conditions s sys).2 := by
  unfold check_emergency_conditions
  by_cases ht : optTruthy s.force_emergency_lane = true
  · rw [if_pos ht]
    exact GoodState_congr h rfl rfl rfl rfl
  · rw [if_neg ht]
    rcases hf : sys.get_all_lane_data.find? (fun p => p.2.ambulance) with _ | p <;>
      rw [hf] <;> exact h

lemma GoodState_iterStates {s : ControllerState}
    (sys : MultiLaneDetectionSystem) (h : GoodState s) :
    ∀ u ∈ iterStates s sys, GoodState u := by
  intro u hu
  have hc := GoodState_check sys h
  have hcm : GoodState { (check_emergency_conditions s sys).2 with
      mode := SignalMode.NORMAL } := GoodState_congr hc rfl rfl rfl rfl
  have hce : GoodState { (check_emergency_conditions s sys).2 with
      mode := SignalMode.EMERGENCY } := GoodState_congr hc rfl rfl rfl rfl
  simp only [iterStates] at hu
  rcases hr : (check_emergency_conditions s sys).1 with _ | l
  · rw [hr] at hu
    simp only [List.mem_cons] at hu
    rcases hu with hu | hu
    · exact hu ▸ hcm
    · exact GoodState_normalCycleStates sys hcm u hu
  · rw [hr] at hu
    by_cases hl : l = 0
    · simp only [ne_eq, hl, not_true_eq_false, if_false, List.mem_cons] at hu
      rcases hu with hu | hu
      · exact hu ▸ hcm
      · exact GoodState_normalCycleStates sys hcm u hu
    · simp only [ne_eq, hl, not_false_eq_true, if_true, List.mem_cons] at hu
      rcases hu with hu | hu
      · exact hu ▸ hce
      · exact GoodState_emergencyStates sys l hce u hu

lemma GoodState_loopIter {s : ControllerState}
    (sys : MultiLaneDetectionSystem) (h : GoodState s) :
    GoodState (loopIter s sys) := by
  have hc := GoodState_check sys h
  have hcm : GoodState { (check_emergency_conditions s sys).2 with
      mode := SignalMode.NORMAL } := GoodState_congr hc rfl rfl rfl rfl
  have hce : GoodState { (check_emergency_conditions s sys).2 with
      mode := SignalMode.EMERGENCY } := GoodState_congr hc rfl rfl rfl rfl
  simp only [loopIter]
  rcases hr : (check_emergency_conditions s sys).1 with _ | l
  · exact GoodState_hnc sys hcm
  · by_cases hl : l = 0
    · simp only [ne_eq, hl, not_true_eq_false, if_false]
      exact GoodState_hnc sys hcm
    · simp only [ne_eq, hl, not_false_eq_true, if_true]
      exact GoodState_heo sys l hce

lemma GoodState_applyOverride {s : ControllerState} (o : Option Nat)
    (h : GoodState s) : GoodState (applyOverride s o) := by
  cases o with
  | none => exact h
  | some l => exact GoodState_congr h rfl rfl rfl rfl

lemma GoodState_execGo {s : ControllerState} (inputs : List IterInput)
    (h : GoodState s) : ∀ u ∈ execGo s inputs, GoodState u := by
  induction inputs generalizing s with
  | nil => intro u hu; simp [execGo] at hu
  | cons inp rest ih =>
      intro u hu
      have ho := GoodState_applyOverride inp.override h
      simp only [execGo, List.mem_append, List.mem_cons] at hu
      rcases hu with (hu | hu) | hu
      · exact hu ▸ ho
      · exact GoodState_iterStates inp.sys ho u hu
      · exact ih (GoodState_loopIter inp.sys ho) u hu

lemma GoodState_initState : GoodState initState := by
  refine ⟨?_, rfl, rfl⟩
  intro j _
  exact dictGet_of_allRed _ (by decide) j

lemma GoodState_runInit : GoodState (runInit initState) := by
  refine ⟨?_, rfl, rfl⟩
  intro j hj
  have hj1 : j ≠ 1 := hj
  unfold get_lane_state runInit
  simp only
  rw [dictGet_dictSet_ne _ _ _ _ hj1]
  exact dictGet_of_allRed _ (by decide) j

lemma GoodState_execTrace (inputs : List IterInput) :
    ∀ u ∈ execTrace inputs, GoodState u := by
  intro u hu
  simp only [execTrace, List.mem_cons] at hu
  rcases hu with hu | hu | hu
  · exact hu ▸ GoodState_initState
  · exact hu ▸ GoodState_runInit
  · exact GoodState_execGo inputs GoodState_runInit u hu

/-! ### Lemmas on `check_emergency_conditions` and the loop -/

lemma check_snd_cases (s : ControllerState) (sys : MultiLaneDetectionSystem) :
    (check_emergency_conditions s sys).2 = s ∨
    (check_emergency_conditions s sys).2 =
      { s with force_emergency_lane := none } := by
  unfold check_emergency_conditions
  by_cases ht : optTruthy s.force_emergency_lane = true
  · rw [if_pos ht]
    right
    rfl
  · rw [if_neg ht]
    rcases hf : sys.get_all_lane_data.find? (fun p => p.2.ambulance) with _ | p <;>
      rw [hf] <;> left <;> rfl

lemma check_snd_running (s : ControllerState) (sys : MultiLaneDetectionSystem) :
    (check_emergency_conditions s sys).2.running = s.running := by
  rcases check_snd_cases s sys with h | h <;> rw [h]

lemma loopIter_running (s : ControllerState) (sys : MultiLaneDetectionSystem) :
    (loopIter s sys).running = s.running := by
  have hc := check_snd_running s sys
  simp only [loopIter]
  rcases hr : (check_emergency_conditions s sys).1 with _ | l
  · simp [hc]
  · by_cases hl : l = 0
    · simp [hl, hc]
    · simp [hl, hc]

lemma runStepE_running (s : ControllerState)
    (i : Except String MultiLaneDetectionSystem) :
    (runStepE s i).running = s.running := by
  cases i with
  | ok sys => exact loopIter_running s sys
  | error e => rfl

/-! ### Lemmas for the statistics accumulation -/

lemma normalRun_stats (syss : List MultiLaneDetectionSystem) :
    ∀ s : ControllerState,
      (normalRun s syss).cycle_count = s.cycle_count + syss.length ∧
      (normalRun s syss).total_wait_time_saved =
        s.total_wait_time_saved + ((greens s syss).map waitTimeSaved).sum := by
  induction syss with
  | nil =>
      intro s
      simp [normalRun, greens]
  | cons sys rest ih =>
      intro s
      have h := ih (handle_normal_cycle s sys).1
      refine ⟨?_, ?_⟩
      · show (normalRun (handle_normal_cycle s sys).1 rest).cycle_count = _
        rw [h.1, hnc_cycle]
        simp [List.length_cons]
        omega
      · show (normalRun (handle_normal_cycle s sys).1 rest).total_wait_time_saved = _
        rw [h.2, hnc_total]
        show _ = s.total_wait_time_saved
          + ((calculate_green_duration (activeTotal s sys)
              :: greens (handle_normal_cycle s sys).1 rest).map waitTimeSaved).sum
        rw [List.map_cons, List.sum_cons]
        ring

/-! ### Quiet-system and round-robin lemmas -/

lemma quiet_find_none (sys : MultiLaneDetectionSystem) (hq : quiet sys) :
    sys.get_all_lane_data.find? (fun p => p.2.ambulance) = none := by
  rw [List.find?_eq_none]
  intro p hp
  have h2 := mem_enumFrom_snd sys.processors 1 p hp
  simp [hq p.2 h2]

lemma check_quiet (s : ControllerState) (sys : MultiLaneDetectionSystem)
    (hf : s.force_emergency_lane = none) (hq : quiet sys) :
    check_emergency_conditions s sys = (none, s) := by
  unfold check_emergency_conditions
  rw [if_neg (by rw [hf]; simp [optTruthy]), quiet_find_none sys hq]

lemma loopIter_quiet (s : ControllerState) (sys : MultiLaneDetectionSystem)
    (hf : s.force_emergency_lane = none) (hq : quiet sys) :
    loopIter s sys
      = (handle_normal_cycle { s with mode := SignalMode.NORMAL } sys).1 := by
  simp only [loopIter, check_quiet s sys hf hq]

lemma hnc_get_lane (s : ControllerState) (sys : MultiLaneDetectionSystem)
    (j : Nat) :
    get_lane_state (handle_normal_cycle s sys).1 j =
      if j = (s.current_lane % 4) + 1 then .GREEN
      else if j = s.current_lane then .RED
      else get_lane_state s j := by
  unfold get_lane_state
  rw [hnc_lane_states]
  by_cases h1 : j = (s.current_lane % 4) + 1
  · rw [if_pos h1, h1, dictGet_dictSet_self]
  · rw [if_neg h1, dictGet_dictSet_ne _ _ _ _ h1]
    by_cases h2 : j = s.current_lane
    · rw [if_pos h2, h2, dictGet_dictSet_self]
    · rw [if_neg h2, dictGet_dictSet_ne _ _ _ _ h2,
        dictGet_dictSet_ne _ _ _ _ h2]

lemma roundRobin_step (sys : MultiLaneDetectionSystem) (hq : quiet sys)
    (s : ControllerState) (c : Nat)
    (h1 : s.current_lane = c) (h2 : s.force_emergency_lane = none)
    (h3 : ∀ j, get_lane_state s j = if j = c then .GREEN else .RED) :
    (loopIter s sys).current_lane = (c % 4) + 1 ∧
    (loopIter s sys).force_emergency_lane = none ∧
    (loopIter s sys).cycle_count = s.cycle_count + 1 ∧
    (∀ j, get_lane_state (loopIter s sys) j
      = if j = (c % 4) + 1 then .GREEN else .RED) := by
  rw [loopIter_quiet s sys h2 hq]
  have hcur : ({ s with mode := SignalMode.NORMAL } : ControllerState).current_lane
      = c := h1
  refine ⟨by rw [hnc_current, hcur], by rw [hnc_force]; exact h2,
    by rw [hnc_cycle], ?_⟩
  intro j
  rw [hnc_get_lane, hcur]
  by_cases hj1 : j = (c % 4) + 1
  · rw [if_pos hj1, if_pos hj1]
  · rw [if_neg hj1, if_neg hj1]
    by_cases hj2 : j = c
    · rw [if_pos hj2]
    · rw [if_neg hj2]
      have := h3 j
      unfold get_lane_state at this ⊢
      rw [this, if_neg hj2]

lemma execLoop_quiet_inv (sys : MultiLaneDetectionSystem) (hq : quiet sys) :
    ∀ (k : Nat) (s : ControllerState) (m : Nat),
      s.current_lane = (m % 4) + 1 →
      s.force_emergency_lane = none →
      (∀ j, get_lane_state s j = if j = (m % 4) + 1 then .GREEN else .RED) →
      (execLoop s (List.replicate k ⟨none, sys⟩)).current_lane
          = ((m + k) % 4) + 1 ∧
      (execLoop s (List.replicate k ⟨none, sys⟩)).force_emergency_lane = none ∧
      (∀ j, get_lane_state (execLoop s (List.replicate k ⟨none, sys⟩)) j
          = if j = ((m + k) % 4) + 1 then .GREEN else .RED) := by
  intro k
  induction k with
  | zero =>
      intro s m hc hf hl
      simpa [execLoop] using ⟨hc, hf, hl⟩
  | succ k ih =>
      intro s m hc hf hl
      rw [List.replicate_succ]
      have hstep := roundRobin_step sys hq s ((m % 4) + 1) hc hf
        (by intro j; rw [hl j])
      have hmod : ((m % 4) + 1) % 4 + 1 = ((m + 1) % 4) + 1 := by omega
      have hrec := ih (loopIter s sys) (m + 1)
        (by rw [hstep.1, hmod]) hstep.2.1
        (by intro j; rw [hstep.2.2.2 j, hmod])
      have harr : m + 1 + k = m + (k + 1) := by omega
      have hel : execLoop s (⟨none, sys⟩ :: List.replicate k ⟨none, sys⟩)
          = execLoop (loopIter s sys) (List.replicate k ⟨none, sys⟩) := rfl
      rw [hel]
      rw [harr] at hrec
      exact hrec

/-! ## Claim theorems -/

/-- C1 (code_bug evidence): the scheduler's green wait is NOT preemptible.
With the controller freshly started (lane 1 GREEN, zero vehicles) and lane 2
reporting an ambulance for the whole cycle, `handle_normal_cycle` still
sleeps the full green duration (15 s) plus the yellow (3 s) and transition
delay (2 s), performs the ordinary round-robin transition to lane 2, leaves
the emergency counter untouched, logs a NORMAL record — and in fact produces
exactly the same result as it would with no ambulance anywhere, because
`time.sleep(green_duration)` gives the other lanes' flags no way in. -/
theorem c1_green_wait_not_preemptible :
    normalCycleSleeps (runInit initState)
        ⟨[⟨[], false⟩, ⟨[], true⟩, ⟨[], false⟩, ⟨[], false⟩]⟩ = [15, 3, 2] ∧
    (handle_normal_cycle (runInit initState)
        ⟨[⟨[], false⟩, ⟨[], true⟩, ⟨[], false⟩, ⟨[], false⟩]⟩).1.current_lane = 2 ∧
    (handle_normal_cycle (runInit initState)
        ⟨[⟨[], false⟩, ⟨[], true⟩, ⟨[], false⟩, ⟨[], false⟩]⟩).1.mode
      = SignalMode.NORMAL ∧
    (handle_normal_cycle (runInit initState)
        ⟨[⟨[], false⟩, ⟨[], true⟩, ⟨[], false⟩, ⟨[], false⟩]⟩).1.emergency_count = 0 ∧
    (handle_normal_cycle (runInit initState)
        ⟨[⟨[], false⟩, ⟨[], true⟩, ⟨[], false⟩, ⟨[], false⟩]⟩).2
      = [⟨1, [], false, 15, "NORMAL"⟩] ∧
    handle_normal_cycle (runInit initState)
        ⟨[⟨[], false⟩, ⟨[], true⟩, ⟨[], false⟩, ⟨[], false⟩]⟩
      = handle_normal_cycle (runInit initState)
        ⟨[⟨[], false⟩, ⟨[], false⟩, ⟨[], false⟩, ⟨[], false⟩]⟩ := by
  decide

/-- C2: the tiered green-duration function returns 60 s for counts above 15,
30 s for counts from 5 to 15 inclusive, and 15 s below 5; in particular
20 ↦ 60, 10 ↦ 30, 3 ↦ 15, and at the boundaries 15 ↦ 30, 5 ↦ 30, 4 ↦ 15. -/
theorem c2_green_duration_tiers :
    (∀ v : Nat,
      (v > 15 → calculate_green_duration v = 60) ∧
      (5 ≤ v ∧ v ≤ 15 → calculate_green_duration v = 30) ∧
      (v < 5 → calculate_green_duration v = 15)) ∧
    calculate_green_duration 20 = 60 ∧
    calculate_green_duration 10 = 30 ∧
    calculate_green_duration 3 = 15 ∧
    calculate_green_duration 15 = 30 ∧
    calculate_green_duration 5 = 30 ∧
    calculate_green_duration 4 = 15 := by
  refine ⟨fun v => ⟨fun h => ?_, fun h => ?_, fun h => ?_⟩,
    by decide, by decide, by decide, by decide, by decide, by decide⟩
  · unfold calculate_green_duration
    rw [if_pos h]
  · unfold calculate_green_duration
    rw [if_neg (by omega), if_pos (by omega)]
  · unfold calculate_green_duration
    rw [if_neg (by omega), if_neg (by omega)]

/-- Witness for C2 at the concrete inputs 20, 10 and 3. -/
theorem c2_green_duration_tiers_witness :
    (20 > 15 ∧ calculate_green_duration 20 = 60) ∧
    (5 ≤ 10 ∧ 10 ≤ 15 ∧ calculate_green_duration 10 = 30) ∧
    (3 < 5 ∧ calculate_green_duration 3 = 15) :=
  ⟨⟨by decide, (c2_green_duration_tiers.1 20).1 (by decide)⟩,
   ⟨by decide, by decide, (c2_green_duration_tiers.1 10).2.1 ⟨by decide, by decide⟩⟩,
   ⟨by decide, (c2_green_duration_tiers.1 3).2.2 (by decide)⟩⟩

/-- C3: at every instant of the controller's execution — the constructed
state, the `run` initialisation, and every shared-state snapshot of every
loop iteration (normal cycles, transitions, and emergency handling) — at
most one lane's signal state is non-RED. -/
theorem c3_at_most_one_non_red :
    ∀ (inputs : List IterInput) (s : ControllerState),
      s ∈ execTrace inputs → atMostOneNonRed s := by
  intro inputs s hs
  exact atMostOneNonRed_of_PInv (GoodState_execTrace inputs s hs).1

/-- Witness for C3 at a concrete execution: one iteration with a manual
override for lane 3 (so an emergency transition runs), sampled mid-trace. -/
theorem c3_at_most_one_non_red_witness :
    ((execTrace [⟨some 3, ⟨[⟨[], false⟩, ⟨[], true⟩, ⟨[], false⟩,
          ⟨[], false⟩]⟩⟩]).getD 5 initState
        ∈ execTrace [⟨some 3, ⟨[⟨[], false⟩, ⟨[], true⟩, ⟨[], false⟩,
          ⟨[], false⟩]⟩⟩]) ∧
      atMostOneNonRed ((execTrace [⟨some 3, ⟨[⟨[], false⟩, ⟨[], true⟩,
          ⟨[], false⟩, ⟨[], false⟩]⟩⟩]).getD 5 initState) := by
  refine ⟨by decide, ?_⟩
  exact c3_at_most_one_non_red
    [⟨some 3, ⟨[⟨[], false⟩, ⟨[], true⟩, ⟨[], false⟩, ⟨[], false⟩]⟩⟩] _
    (by decide)

/-- C4: an unpreempted normal cycle takes the active lane L through YELLOW
(slept for `yellow_duration`) then RED (slept for `transition_delay`), makes
lane (L mod 4) + 1 GREEN and current, increments the cycle counter and resets
the mode to NORMAL; every state in an execution trace keeps the fixed
durations 3 s and 2 s; and absent emergencies the active lane after k cycles
from the initial lane 1 is exactly (k mod 4) + 1, i.e. the round-robin
sequence 1, 2, 3, 4, 1, 2, ... -/
theorem c4_normal_transition_round_robin :
    (∀ (s : ControllerState) (sys : MultiLaneDetectionSystem),
      get_lane_state (transYellow (ncAccrue s sys) s.current_lane)
          s.current_lane = .YELLOW ∧
      get_lane_state (transRed (transYellow (ncAccrue s sys) s.current_lane)
          s.current_lane) s.current_lane = .RED ∧
      (handle_normal_cycle s sys).1.current_lane = (s.current_lane % 4) + 1 ∧
      get_lane_state (handle_normal_cycle s sys).1 ((s.current_lane % 4) + 1)
        = .GREEN ∧
      (handle_normal_cycle s sys).1.cycle_count = s.cycle_count + 1 ∧
      (handle_normal_cycle s sys).1.mode = .NORMAL ∧
      normalCycleSleeps s sys
        = [calculate_green_duration (activeTotal s sys),
           s.yellow_duration, s.transition_delay]) ∧
    (∀ (inputs : List IterInput) (s : ControllerState), s ∈ execTrace inputs →
      s.yellow_duration = 3 ∧ s.transition_delay = 2) ∧
    (∀ (sys : MultiLaneDetectionSystem) (k : Nat), quiet sys →
      (execLoop (runInit initState)
          (List.replicate k ⟨none, sys⟩)).current_lane = (k % 4) + 1 ∧
      get_lane_state (execLoop (runInit initState)
          (List.replicate k ⟨none, sys⟩)) ((k % 4) + 1) = .GREEN) := by
  refine ⟨fun s sys => ?_, fun inputs s hs => ?_, fun sys k hq => ?_⟩
  · refine ⟨?_, ?_, hnc_current s sys, ?_, hnc_cycle s sys, hnc_mode s sys, rfl⟩
    · unfold get_lane_state transYellow
      simp only
      rw [dictGet_dictSet_self]
    · unfold get_lane_state transRed transYellow
      simp only
      rw [dictGet_dictSet_self]
    · rw [hnc_get_lane, if_pos rfl]
  · have h := GoodState_execTrace inputs s hs
    exact ⟨h.2.1, h.2.2⟩
  · have hlanes : ∀ j, get_lane_state (runInit initState) j
        = if j = (0 % 4) + 1 then SignalState.GREEN else SignalState.RED := by
      intro j
      by_cases hj : j = 1
      · unfold get_lane_state runInit
        simp only
        rw [hj, dictGet_dictSet_self]
        rfl
      · unfold get_lane_state runInit
        simp only
        rw [dictGet_dictSet_ne _ _ _ _ hj]
        rw [if_neg (by omega : ¬(j = 0 % 4 + 1))]
        exact dictGet_of_allRed _ (by decide) j
    have h := execLoop_quiet_inv sys hq k (runInit initState) 0 rfl rfl hlanes
    have hz : (0 + k) % 4 + 1 = (k % 4) + 1 := by omega
    rw [hz] at h
    exact ⟨h.1, by rw [h.2.2 ((k % 4) + 1), if_pos rfl]⟩

/-- Witness for C4: the empty trace contains the constructed state with the
fixed 3 s / 2 s durations, and five quiet cycles starting at lane 1 land on
lane 2 = (5 mod 4) + 1. -/
theorem c4_normal_transition_round_robin_witness :
    (initState ∈ execTrace [] ∧ initState.yellow_duration = 3) ∧
    (quiet ⟨[⟨[("car", 2)], false⟩, ⟨[], false⟩, ⟨[], false⟩, ⟨[], false⟩]⟩ ∧
      (execLoop (runInit initState) (List.replicate 5
          ⟨none, ⟨[⟨[("car", 2)], false⟩, ⟨[], false⟩, ⟨[], false⟩,
            ⟨[], false⟩]⟩⟩)).current_lane = (5 % 4) + 1) :=
  ⟨⟨by decide, (c4_normal_transition_round_robin.2.1 [] initState (by decide)).1⟩,
   ⟨by unfold quiet; decide, (c4_normal_transition_round_robin.2.2
      ⟨[⟨[("car", 2)], false⟩, ⟨[], false⟩, ⟨[], false⟩, ⟨[], false⟩]⟩ 5
      (by unfold quiet; decide)).1⟩⟩

/-- C5: the manual override is a single slot consumed exactly once:
`force_emergency` always overwrites the slot (never queues), a truthy pending
override is returned by `check_emergency_conditions` with the slot cleared
immediately, and two consecutive `forceEmergency(3)` calls followed by one
scheduler iteration (which performs the emergency handling) leave the slot
empty. -/
theorem c5_override_consumed_once :
    (∀ (s : ControllerState) (lane_id : Nat),
      (force_emergency s lane_id).force_emergency_lane = some lane_id) ∧
    (∀ (s : ControllerState) (sys : MultiLaneDetectionSystem),
      optTruthy s.force_emergency_lane = true →
        (check_emergency_conditions s sys).1 = s.force_emergency_lane ∧
        (check_emergency_conditions s sys).2.force_emergency_lane = none) ∧
    (∀ sys : MultiLaneDetectionSystem,
      (loopIter (force_emergency (force_emergency (runInit initState) 3) 3)
          sys).force_emergency_lane = none) := by
  refine ⟨fun s l => rfl, fun s sys ht => ?_, fun sys => ?_⟩
  · unfold check_emergency_conditions
    rw [if_pos ht]
    exact ⟨rfl, rfl⟩
  · have hc : check_emergency_conditions
        (force_emergency (force_emergency (runInit initState) 3) 3) sys
        = (some 3, { force_emergency (force_emergency (runInit initState) 3) 3
            with force_emergency_lane := none }) := by
      have ht : optTruthy (force_emergency (force_emergency (runInit initState) 3)
          3).force_emergency_lane = true := rfl
      unfold check_emergency_conditions
      rw [if_pos ht]
      rfl
    simp [loopIter, hc]

/-- Witness for C5's hypothesis-bearing conjunct at a concrete state with a
pending override for lane 3. -/
theorem c5_override_consumed_once_witness :
    optTruthy (force_emergency initState 3).force_emergency_lane = true ∧
    (check_emergency_conditions (force_emergency initState 3)
        ⟨[]⟩).2.force_emergency_lane = none :=
  ⟨by decide,
   (c5_override_consumed_once.2.1 (force_emergency initState 3) ⟨[]⟩ (by decide)).2⟩

/-- C6: emergency-lane selection is deterministic: a pending (truthy) manual
override is preferred and consumed; otherwise, since `get_all_lane_data`
iterates the lanes in ascending id order, the first — hence lowest-numbered —
lane currently reporting an ambulance is selected, independent of arrival
order; with no pending override and no ambulance, no lane is selected. -/
theorem c6_emergency_selection_deterministic :
    (∀ (s : ControllerState) (sys : MultiLaneDetectionSystem) (l : Nat),
      s.force_emergency_lane = some l → l ≠ 0 →
        check_emergency_conditions s sys
          = (some l, { s with force_emergency_lane := none })) ∧
    (∀ (s : ControllerState) (sys : MultiLaneDetectionSystem),
      s.force_emergency_lane = none →
        (check_emergency_conditions s sys).2 = s ∧
        (∀ l : Nat, (check_emergency_conditions s sys).1 = some l →
          (∃ d : LaneData, (l, d) ∈ sys.get_all_lane_data ∧
            d.ambulance = true) ∧
          (∀ (m : Nat) (d : LaneData), (m, d) ∈ sys.get_all_lane_data →
            d.ambulance = true → l ≤ m)) ∧
        ((∀ p ∈ sys.get_all_lane_data, p.2.ambulance = false) →
          (check_emergency_conditions s sys).1 = none)) := by
  refine ⟨fun s sys l h hl => ?_, fun s sys h => ?_⟩
  · have ht : optTruthy s.force_emergency_lane = true := by
      rw [h]
      simp [optTruthy, hl]
    unfold check_emergency_conditions
    rw [if_pos ht, h]
  · have ht : ¬(optTruthy s.force_emergency_lane = true) := by
      rw [h]
      simp [optTruthy]
    unfold check_emergency_conditions
    rw [if_neg ht]
    rcases hf : sys.get_all_lane_data.find? (fun p => p.2.ambulance) with _ | p
    · rw [hf]
      refine ⟨rfl, fun l hl => ?_, fun _ => rfl⟩
      simp at hl
    · rw [hf]
      refine ⟨rfl, fun l hl => ?_, fun hall => ?_⟩
      · have hl' : l = p.1 := by
          simp at hl
          omega
        have hmem := List.mem_of_find?_eq_some hf
        have hamb : p.2.ambulance = true := by
          simpa using List.find?_some hf
        subst hl'
        constructor
        · exact ⟨p.2, by simpa using hmem, hamb⟩
        · intro m d hmd hdamb
          exact find?_enumFrom_min (fun q => q.2.ambulance) sys.processors 1 p
            hf (m, d) hmd (by simpa using hdamb)
      · have hmem := List.mem_of_find?_eq_some hf
        have hamb : p.2.ambulance = true := by
          simpa using List.find?_some hf
        exact absurd hamb (by simp [hall p hmem])

/-- Witness for C6 at concrete inputs: ambulances on lanes 2 and 3 select
lane 2 (the lowest), and a pending override for lane 2 is preferred and
consumed. -/
theorem c6_emergency_selection_deterministic_witness :
    (initState.force_emergency_lane = none ∧
      (check_emergency_conditions initState
        ⟨[⟨[], false⟩, ⟨[], true⟩, ⟨[], true⟩, ⟨[], false⟩]⟩).1 = some 2 ∧
      (3, ({ counts := [], ambulance := true } : LaneData)) ∈
        (MultiLaneDetectionSystem.mk [⟨[], false⟩, ⟨[], true⟩, ⟨[], true⟩,
          ⟨[], false⟩]).get_all_lane_data ∧
      2 ≤ 3) ∧
    ((force_emergency initState 2).force_emergency_lane = some 2 ∧
      (2 : Nat) ≠ 0 ∧
      check_emergency_conditions (force_emergency initState 2) ⟨[]⟩
        = (some 2, { force_emergency initState 2 with
            force_emergency_lane := none })) := by
  refine ⟨⟨rfl, by decide, by decide, ?_⟩, rfl, by decide, ?_⟩
  · exact ((c6_emergency_selection_deterministic.2 initState
      ⟨[⟨[], false⟩, ⟨[], true⟩, ⟨[], true⟩, ⟨[], false⟩]⟩ rfl).2.1 2
      (by decide)).2 3 ⟨[], true⟩ (by decide) rfl
  · exact c6_emergency_selection_deterministic.1
      (force_emergency initState 2) ⟨[]⟩ 2 rfl (by decide)

/-- C7: when the selected emergency lane E differs from the active lane L,
`handle_emergency_override` drives L through YELLOW then RED, makes E GREEN
and current, logs one record with the fixed 45 s emergency green and mode
string EMERGENCY, sleeps the yellow, delay and 45 s durations, and
increments both the cycle and emergency counters; when E equals L it returns
the state unchanged (the active lane is simply held) and sleeps nothing. -/
theorem c7_emergency_override_handling :
    (∀ (s : ControllerState) (sys : MultiLaneDetectionSystem) (e : Nat),
      s.current_lane ≠ e →
        (handle_emergency_override s sys e).1.current_lane = e ∧
        get_lane_state (handle_emergency_override s sys e).1 e = .GREEN ∧
        get_lane_state (transYellow { s with
            emergency_count := s.emergency_count + 1 } s.current_lane)
          s.current_lane = .YELLOW ∧
        get_lane_state (transRed (transYellow { s with
              emergency_count := s.emergency_count + 1 } s.current_lane)
            s.current_lane) s.current_lane = .RED ∧
        (handle_emergency_override s sys e).2
          = [{ lane_id := e
               vehicle_counts := (sys.get_lane_data e).1
               ambulance_detected := true
               green_duration := 45
               signal_mode := "EMERGENCY" }] ∧
        emergencySleeps s e = [s.yellow_duration, s.transition_delay, 45] ∧
        (handle_emergency_override s sys e).1.cycle_count = s.cycle_count + 1 ∧
        (handle_emergency_override s sys e).1.emergency_count
          = s.emergency_count + 1) ∧
    (∀ (s : ControllerState) (sys : MultiLaneDetectionSystem) (e : Nat),
      s.current_lane = e →
        handle_emergency_override s sys e = (s, []) ∧
        emergencySleeps s e = []) := by
  refine ⟨fun s sys e h => ?_, fun s sys e h => ?_⟩
  · refine ⟨heo_current_of_ne s sys e h, ?_, ?_, ?_, heo_log_of_ne s sys e h,
      ?_, heo_cycle_of_ne s sys e h, heo_emcount_of_ne s sys e h⟩
    · unfold get_lane_state
      rw [heo_lane_states_of_ne s sys e h, dictGet_dictSet_self]
    · unfold get_lane_state transYellow
      simp only
      rw [dictGet_dictSet_self]
    · unfold get_lane_state transRed transYellow
      simp only
      rw [dictGet_dictSet_self]
    · unfold emergencySleeps transSleeps
      rw [if_neg h]
      rfl
  · exact ⟨heo_of_same s sys e h, by unfold emergencySleeps; rw [if_pos h]⟩

/-- Witness for C7 on the freshly started controller: emergency lane 3
differs from the active lane 1 (full transition, counters, 45 s log entry),
and emergency lane 1 equals it (state unchanged). -/
theorem c7_emergency_override_handling_witness :
    ((runInit initState).current_lane ≠ 3 ∧
      (handle_emergency_override (runInit initState) ⟨[]⟩ 3).1.current_lane
        = 3 ∧
      get_lane_state (handle_emergency_override (runInit initState) ⟨[]⟩ 3).1 3
        = .GREEN) ∧
    ((runInit initState).current_lane = 1 ∧
      handle_emergency_override (runInit initState) ⟨[]⟩ 1
        = (runInit initState, [])) := by
  refine ⟨⟨by decide, ?_, ?_⟩, rfl, ?_⟩
  · exact (c7_emergency_override_handling.1 (runInit initState) ⟨[]⟩ 3
      (by decide)).1
  · exact (c7_emergency_override_handling.1 (runInit initState) ⟨[]⟩ 3
      (by decide)).2.1
  · exact (c7_emergency_override_handling.2 (runInit initState) ⟨[]⟩ 1 rfl).1

/-- C8: after C completed normal cycles the statistics report exactly C
cycles and a cumulative wait saved of Σ max(0, 60 − dᵢ) over the granted
green durations dᵢ, and `get_statistics` reports the average wait saved per
cycle as the quotient, with 0 when no cycle has completed. -/
theorem c8_statistics :
    (∀ syss : List MultiLaneDetectionSystem,
      (normalRun (runInit initState) syss).cycle_count = syss.length ∧
      (normalRun (runInit initState) syss).total_wait_time_saved =
        ((greens (runInit initState) syss).map waitTimeSaved).sum) ∧
    (∀ s : ControllerState, s.cycle_count ≠ 0 →
      (get_statistics s).avg_wait_saved_per_cycle =
        ((get_statistics s).wait_time_saved : ℚ)
          / ((get_statistics s).total_cycles : ℚ)) ∧
    (∀ s : ControllerState, s.cycle_count = 0 →
      (get_statistics s).avg_wait_saved_per_cycle = 0) := by
  refine ⟨fun syss => ?_, fun s h => ?_, fun s h => ?_⟩
  · have h := normalRun_stats syss (runInit initState)
    refine ⟨?_, ?_⟩
    · rw [h.1]
      simp [runInit, initState]
    · rw [h.2]
      show (0 : Int) + _ = _
      rw [zero_add]
  · have hp : s.cycle_count > 0 := Nat.pos_of_ne_zero h
    simp [get_statistics, hp]
  · simp [get_statistics, h]

/-- Witness for C8's hypothesis-bearing conjuncts: a state with one cycle
and 30 s saved, and the freshly constructed state with zero cycles. -/
theorem c8_statistics_witness :
    (({ initState with
          cycle_count := 1
          total_wait_time_saved := 30 } : ControllerState).cycle_count ≠ 0 ∧
      (get_statistics { initState with
          cycle_count := 1
          total_wait_time_saved := 30 }).avg_wait_saved_per_cycle =
        ((get_statistics { initState with
            cycle_count := 1
            total_wait_time_saved := 30 }).wait_time_saved : ℚ)
          / ((get_statistics { initState with
              cycle_count := 1
              total_wait_time_saved := 30 }).total_cycles : ℚ)) ∧
    (initState.cycle_count = 0 ∧
      (get_statistics initState).avg_wait_saved_per_cycle = 0) :=
  ⟨⟨by decide, c8_statistics.2.1 _ (by decide)⟩,
   ⟨rfl, c8_statistics.2.2 initState rfl⟩⟩

/-- C9: absent lane data is served as empty counts and no ambulance, which
yields zero vehicles and the minimum 15 s green rather than an error; a
raising loop body is caught and changes nothing; every pass of the loop body
(caught or not) preserves the `running` flag; while `running` holds the loop
processes every iteration (it can only stop through an explicit stop
request), and after `stop` the loop exits immediately. -/
theorem c9_missing_data_and_loop_resilience :
    (∀ (sys : MultiLaneDetectionSystem) (lane : Nat),
      lane = 0 ∨ sys.processors.length < lane →
        sys.get_lane_data lane = ([], false)) ∧
    (∀ (s : ControllerState) (sys : MultiLaneDetectionSystem),
      sys.get_lane_data s.current_lane = ([], false) →
        activeTotal s sys = 0 ∧
        calculate_green_duration (activeTotal s sys) = 15 ∧
        activeAmbulance s sys = false) ∧
    (∀ (e : String) (s : ControllerState), runStepE s (.error e) = s) ∧
    (∀ (s : ControllerState) (i : Except String MultiLaneDetectionSystem),
      (runStepE s i).running = s.running) ∧
    (∀ (s : ControllerState)
        (ins : List (Except String MultiLaneDetectionSystem)),
      s.running = true →
        runLoop s ins = List.foldl runStepE s ins ∧
        (runLoop s ins).running = true) ∧
    (∀ (s : ControllerState)
        (ins : List (Except String MultiLaneDetectionSystem)),
      runLoop (stop s) ins = stop s) := by
  refine ⟨fun sys lane h => ?_, fun s sys h => ?_, fun e s => rfl,
    runStepE_running, fun s ins => ?_, fun s ins => ?_⟩
  · unfold MultiLaneDetectionSystem.get_lane_data
    rw [if_neg (by omega)]
  · have ht : activeTotal s sys = 0 := by
      unfold activeTotal activeCounts
      rw [h]
      rfl
    refine ⟨ht, ?_, ?_⟩
    · rw [ht]
      rfl
    · unfold activeAmbulance
      rw [h]
  · induction ins generalizing s with
    | nil => exact fun h => ⟨rfl, h⟩
    | cons i rest ih =>
        intro h
        have hi : (runStepE s i).running = true := (runStepE_running s i).trans h
        have hr := ih (runStepE s i) hi
        unfold runLoop
        rw [if_pos h]
        exact ⟨hr.1, hr.2⟩
  · cases ins with
    | nil => rfl
    | cons i rest =>
        unfold runLoop
        rw [if_neg]
        simp [stop]

/-- Witness for C9's hypothesis-bearing conjuncts at concrete inputs: a
detection system with no processors queried for lane 1, and a running state
fed two iterations (one raising). -/
theorem c9_missing_data_and_loop_resilience_witness :
    ((1 = 0 ∨ (MultiLaneDetectionSystem.mk []).processors.length < 1) ∧
      (MultiLaneDetectionSystem.mk []).get_lane_data 1 = ([], false)) ∧
    ((runInit initState).running = true ∧
      (runLoop (runInit initState) [.error "boom", .error "again"]).running
        = true) :=
  ⟨⟨Or.inr (by decide),
    c9_missing_data_and_loop_resilience.1 ⟨[]⟩ 1 (Or.inr (by decide))⟩,
   ⟨rfl,
    (c9_missing_data_and_loop_resilience.2.2.2.2.1 (runInit initState)
      [.error "boom", .error "again"] rfl).2⟩⟩

/-- C10: emergency handling never changes the accumulated wait-time-saved
statistic, whether or not the emergency lane equals the active lane;
wait-time-saved accrues only in normal cycles, by max(0, 60 − green). -/
theorem c10_emergency_frame_wait_saved :
    (∀ (s : ControllerState) (sys : MultiLaneDetectionSystem) (e : Nat),
      (handle_emergency_override s sys e).1.total_wait_time_saved
        = s.total_wait_time_saved) ∧
    (∀ (s : ControllerState) (sys : MultiLaneDetectionSystem),
      (handle_normal_cycle s sys).1.total_wait_time_saved
        = s.total_wait_time_saved
          + waitTimeSaved (calculate_green_duration (activeTotal s sys))) :=
  ⟨fun s sys e => heo_total s sys e, fun s sys => hnc_total s sys⟩

end SmartSignals
